import Mathlib

/-!
Shallow embedding of the Ghostfolio Home Assistant integration
(`custom_components/ghostfolio`): the API client (`api.py`), the data-update
coordinator (`__init__.py`), the constants (`const.py`) and the
net-performance-percentage sensor (`sensor.py`).

JSON numbers are modelled as rationals; Python `None` and JSON `null` coincide,
exactly as they do under `json.loads`.  HTTP exchanges are passed in
explicitly: each modelled operation receives the response the server would
give to every request it may issue, and returns the updated client state, the
list of requests actually issued (so that "exactly one retry" is a statement
about that list), and either a parsed body or the raised exception.
-/

namespace Ghostfolio

/-- JSON values as delivered by `response.json()`.  Arrays and booleans do not
occur in any behaviour this development reasons about, so the model omits
them.  `null` also stands for Python `None`. -/
inductive Json where
  | null : Json
  | num : Rat → Json
  | str : String → Json
  | obj : List (String × Json) → Json

/-- Key lookup in an object's field list (first match wins; the concrete JSON
objects of this development have pairwise distinct keys). -/
def lookupField : List (String × Json) → String → Option Json
  | [], _ => none
  | (k, v) :: rest, key => if k = key then some v else lookupField rest key

/-- Python `d.get(k)` on a parsed JSON object: `None` (that is, `null`) when
the key is missing.  On a non-object Python would raise `AttributeError`; no
behaviour this development reasons about performs the call there, and the
model returns `null`. -/
def Json.pyGet (j : Json) (k : String) : Json :=
  match j with
  | .obj fields => (lookupField fields k).getD .null
  | _ => .null

/-- Python truthiness of the modelled JSON values, as used by
`if not self.auth_token` in `api.py`. -/
def Json.truthy : Json → Bool
  | .null => false
  | .num q => q != 0
  | .str s => s != ""
  | .obj fields => !fields.isEmpty

/-- Python `isinstance(j, dict)` for a parsed JSON value. -/
def Json.isObj : Json → Bool
  | .obj _ => true
  | _ => false

/-- Python dict assignment `d[k] = v`: replaces an existing binding in place,
otherwise appends (dicts preserve insertion order). -/
def dictSet : List (String × Json) → String → Json → List (String × Json)
  | [], k, v => [(k, v)]
  | (k', v') :: rest, k, v =>
      if k' = k then (k, v) :: rest else (k', v') :: dictSet rest k v

/-- The exceptions raised by the API client, keeping the data their messages
carry: `authFailed s` is `GhostfolioAuthError("Authentication failed: s")`,
`apiRequestFailed s` is `GhostfolioAPIError("API request failed: s")` and
`connectionError m` is `GhostfolioAPIError("Connection error: m")`. -/
inductive ApiError where
  | authFailed : Nat → ApiError
  | apiRequestFailed : Nat → ApiError
  | connectionError : String → ApiError
  deriving DecidableEq

/-- Whether the raised exception is a `GhostfolioAuthError`. -/
def ApiError.isAuthError : ApiError → Bool
  | .authFailed _ => true
  | _ => false

/-- Whether the raised exception is a `GhostfolioAPIError`. -/
def ApiError.isApiError : ApiError → Bool
  | .authFailed _ => false
  | _ => true

/-- Outcome of one HTTP request: a response with a status and parsed body, or
a transport-level failure (`aiohttp.ClientError`). -/
inductive HttpResult where
  | ok : Nat → Json → HttpResult
  | netErr : String → HttpResult

/-- State of the client's `aiohttp.ClientSession`: `self._session` is `None`,
an open session, or a closed session. -/
inductive SessionState where
  | unopened : SessionState
  | opened : SessionState
  | closed : SessionState
  deriving DecidableEq

/-- Source `GhostfolioAPI._get_session` (api.py): creates a fresh session when none
exists or the current one is closed, else reuses the open one; either way an
open session results. -/
def getSession : SessionState → SessionState
  | .unopened => .opened
  | .closed => .opened
  | .opened => .opened

/-- Source `GhostfolioAPI.close`, its effect on the session (api.py): `if self._session and not
self._session.closed: await self._session.close()`; never-opened and
already-closed sessions are left alone, and no path raises. -/
def closeSession : SessionState → SessionState
  | .opened => .closed
  | .unopened => .unopened
  | .closed => .closed

/-- The mutable state of a `GhostfolioAPI` instance.  `auth_token` is a Python
value (`null` for `None`); the source annotates it `str | None` but stores
whatever `data.get("authToken")` returned. -/
structure GhostfolioAPI where
  base_url : String
  access_token : String
  verify_ssl : Bool
  auth_token : Json
  session : SessionState

/-- Source `GhostfolioAPI.__init__` (api.py): strips trailing slashes from the base
URL, holds no bearer token and no session. -/
def GhostfolioAPI.init (base_url access_token : String) (verify_ssl : Bool) :
    GhostfolioAPI :=
  { base_url := base_url.dropRightWhile (fun c => c = '/')
    access_token := access_token
    verify_ssl := verify_ssl
    auth_token := Json.null
    session := SessionState.unopened }

/-- A request issued against the upstream service: the auth POST to
`/api/v1/auth/anonymous` carrying the static access token, or the GET to
`/api/v2/portfolio/performance` carrying the range as query parameter and the
bearer token in the Authorization header. -/
inductive ApiEvent where
  | authPost : String → ApiEvent
  | perfGet : String → Json → ApiEvent

/-- Source `GhostfolioAPI.authenticate` (api.py): POSTs the access token to the
anonymous-auth endpoint; on status 200 or 201 stores and returns the body's
`authToken` field; any other status raises `GhostfolioAuthError` carrying the
status; a transport failure raises `GhostfolioAPIError("Connection error")`
wrapping it. -/
def GhostfolioAPI.authenticate (s : GhostfolioAPI) (resp : HttpResult) :
    GhostfolioAPI × List ApiEvent × Except ApiError Json :=
  let s0 : GhostfolioAPI := { s with session := getSession s.session }
  match resp with
  | .ok status body =>
      if status = 200 ∨ status = 201 then
        let tok := body.pyGet "authToken"
        ({ s0 with auth_token := tok }, [.authPost s.access_token], .ok tok)
      else
        (s0, [.authPost s.access_token], .error (.authFailed status))
  | .netErr msg =>
      (s0, [.authPost s.access_token], .error (.connectionError msg))

/-- The responses the server would give to each request
`get_portfolio_performance` may issue, in program order: the lazy
authentication POST, the first performance GET, the re-authentication POST of
the 401 branch, and the retried performance GET. -/
structure PerfEnv where
  lazyAuthResp : HttpResult
  firstGetResp : HttpResult
  reAuthResp : HttpResult
  retryGetResp : HttpResult

/-- The `try` block of `GhostfolioAPI.get_portfolio_performance` (api.py),
entered after the lazy-authentication check: issue the authenticated GET with
the range as query parameter; on 200 return the parsed body; on 401
re-authenticate once (a failure there propagates) and retry once with the new
token, any non-200 retry status raising `GhostfolioAPIError` carrying it; any
other status raising `GhostfolioAPIError` immediately; transport failures
raising `GhostfolioAPIError("Connection error")`. -/
def perfRequestPhase (s1 : GhostfolioAPI) (range_param : String) (env : PerfEnv) :
    GhostfolioAPI × List ApiEvent × Except ApiError Json :=
  let s2 : GhostfolioAPI := { s1 with session := getSession s1.session }
  let ev1 : List ApiEvent := [.perfGet range_param s1.auth_token]
  match env.firstGetResp with
  | .ok status _body =>
      if status = 200 then (s2, ev1, .ok _body)
      else if status = 401 then
        match s2.authenticate env.reAuthResp with
        | (s3, evA, .error e) => (s3, ev1 ++ evA, .error e)
        | (s3, evA, .ok _) =>
            let s4 : GhostfolioAPI := { s3 with session := getSession s3.session }
            let ev2 := ev1 ++ evA ++ [.perfGet range_param s3.auth_token]
            match env.retryGetResp with
            | .ok status2 body2 =>
                if status2 = 200 then (s4, ev2, .ok body2)
                else (s4, ev2, .error (.apiRequestFailed status2))
            | .netErr m => (s4, ev2, .error (.connectionError m))
      else (s2, ev1, .error (.apiRequestFailed status))
  | .netErr m => (s2, ev1, .error (.connectionError m))

/-- Source `GhostfolioAPI.get_portfolio_performance` (api.py): lazily authenticates
when no truthy bearer token is held (an authentication failure propagates),
then runs the request phase. -/
def GhostfolioAPI.get_portfolio_performance (s : GhostfolioAPI)
    (range_param : String) (env : PerfEnv) :
    GhostfolioAPI × List ApiEvent × Except ApiError Json :=
  if s.auth_token.truthy then perfRequestPhase s range_param env
  else
    match s.authenticate env.lazyAuthResp with
    | (s1, ev, .error e) => (s1, ev, .error e)
    | (s1, ev, .ok _) =>
        let out := perfRequestPhase s1 range_param env
        (out.1, ev ++ out.2.1, out.2.2)

/-- Source `GhostfolioAPI.close` (api.py): closes the session when one is open; safe
on never-opened and already-closed clients, and no path raises. -/
def GhostfolioAPI.close (s : GhostfolioAPI) : GhostfolioAPI :=
  { s with session := closeSession s.session }

/-- Modelled from the spec: the API client's `get_user_settings` operation,
called by the coordinator but not among the sources here.  The spec describes
it as an authenticated GET against the user-settings endpoint whose successful
response is a JSON object carrying the account currency under
`settings.baseCurrency`; on success the parsed body is returned. -/
def GhostfolioAPI.get_user_settings (s : GhostfolioAPI) (resp : HttpResult) :
    GhostfolioAPI × Except ApiError Json :=
  match resp with
  | .ok status body =>
      if status = 200 then (s, .ok body)
      else (s, .error (.apiRequestFailed status))
  | .netErr m => (s, .error (.connectionError m))

/-- Source `DEFAULT_PERFORMANCE_RANGES` (const.py). -/
def DEFAULT_PERFORMANCE_RANGES : List String := ["max"]

/-- Source `PERFORMANCE_RANGE_OPTIONS` (const.py). -/
def PERFORMANCE_RANGE_OPTIONS : List String := ["1d", "wtd", "mtd", "ytd", "1y", "max"]

/-- Python `list(dict.fromkeys(xs))`: deduplication keeping the first occurrence of
each element, preserving first-seen order. -/
def dedupFirst : List String → List String
  | [] => []
  | x :: xs => x :: dedupFirst (xs.filter (fun y => y ≠ x))
termination_by xs => xs.length
decreasing_by
  simpa using Nat.lt_succ_of_le (List.length_filter_le _ _)

/-- The range list computed in `GhostfolioDataUpdateCoordinator.__init__`
(`__init__.py`): `list(dict.fromkeys(performance_ranges or
DEFAULT_PERFORMANCE_RANGES))` — an empty (falsy) configured list falls back to
the default before deduplication. -/
def coordinatorRanges (performance_ranges : List String) : List String :=
  dedupFirst (if performance_ranges.isEmpty then DEFAULT_PERFORMANCE_RANGES
              else performance_ranges)

/-- Source expression `entry.data.get(CONF_PERFORMANCE_RANGES, DEFAULT_PERFORMANCE_RANGES)` in
`async_setup_entry` (`__init__.py`): a missing configuration entry yields the
default range list. -/
def configuredRanges (entryRanges : Option (List String)) : List String :=
  entryRanges.getD DEFAULT_PERFORMANCE_RANGES

/-- A request issued by one coordinator refresh cycle: a portfolio-performance
fetch for one range, or the user-settings fetch. -/
inductive CoordRequest where
  | perfFetch : String → CoordRequest
  | settingsFetch : CoordRequest
  deriving DecidableEq

/-- The fan-out of `_async_update_data` (`__init__.py`): one
`get_portfolio_performance` task per entry of `self.ranges`, gathered
concurrently with the single `get_user_settings` call; the merge runs only
after the whole gather completes. -/
def refreshRequests (ranges : List String) : List CoordRequest :=
  ranges.map CoordRequest.perfFetch ++ [CoordRequest.settingsFetch]

/-- The merged snapshot returned by `_async_update_data` (`__init__.py`): the
dict with keys `base_currency`, `performance` and `firstOrderDate`. -/
structure CoordinatorData where
  base_currency : Json
  performance : List (String × Json)
  firstOrderDate : Json

/-- The settings lookup of `_async_update_data` (`__init__.py`):
`user_settings.get("settings", ...).get("baseCurrency")` guarded by
`isinstance(user_settings, dict)`, where the first `get` defaults to an empty
dict.  When the `settings` key holds a non-dict value the second `get` raises
`AttributeError`, modelled as the error case. -/
def settingsBaseCurrency (user_settings : Json) : Except String Json :=
  match user_settings with
  | .obj fields =>
      match (lookupField fields "settings").getD (Json.obj []) with
      | .obj sfields => .ok ((lookupField sfields "baseCurrency").getD .null)
      | _ => .error "AttributeError"
  | _ => .ok .null

/-- One iteration of the merge loop of `_async_update_data` (`__init__.py`):
a non-dict response is skipped; otherwise the snapshot (unwrapping a dict
under the `performance` key when present) is keyed under the range, the
`firstOrderDate` is taken from the response while none is held yet, and the
base currency is taken from the snapshot while none is held yet. -/
def mergeStep (acc : CoordinatorData) (range_param : String) (result : Json) :
    CoordinatorData :=
  match result with
  | .obj rfields =>
      let perf := (lookupField rfields "performance").getD .null
      let perf_data := match perf with
        | .obj _ => perf
        | _ => result
      let cache := dictSet acc.performance range_param perf_data
      let fod := match acc.firstOrderDate with
        | .null => (lookupField rfields "firstOrderDate").getD .null
        | v => v
      let bc := match acc.base_currency with
        | .null =>
            match perf_data with
            | .obj pfields => (lookupField pfields "baseCurrency").getD .null
            | _ => acc.base_currency
        | v => v
      { base_currency := bc, performance := cache, firstOrderDate := fod }
  | _ => acc

/-- The merge of `GhostfolioDataUpdateCoordinator._async_update_data`
(`__init__.py`), as a function of the gathered per-range responses (aligned
with `self.ranges` by the truncating `zip(..., strict=False)`) and the
user-settings response.  The only failure is the `AttributeError` of
`settingsBaseCurrency`. -/
def _async_update_data (ranges : List String) (performance_results : List Json)
    (user_settings : Json) : Except String CoordinatorData :=
  (settingsBaseCurrency user_settings).map (fun bc0 =>
    (List.zip ranges performance_results).foldl
      (fun acc p => mergeStep acc p.1 p.2)
      { base_currency := bc0, performance := [], firstOrderDate := Json.null })

/-- Source `GhostfolioRangeSensor.performance_data` (sensor.py): the cached snapshot
for this sensor's range, or an empty dict when the coordinator holds no data,
the range is missing, or the cached value is not a dict.  `none` models
`self.coordinator.data` being `None` before the first refresh. -/
def performance_data (data : Option CoordinatorData) (range_param : String) :
    Json :=
  match data with
  | none => Json.obj []
  | some d =>
      match lookupField d.performance range_param with
      | some (Json.obj fs) => Json.obj fs
      | _ => Json.obj []

/-- Python `v * 100` on the modelled JSON values: numbers multiply, strings
repeat, `None` and dicts raise `TypeError`. -/
def pyMul100 : Json → Except String Json
  | .num q => .ok (.num (q * 100))
  | .str sVal => .ok (.str (String.join (List.replicate 100 sVal)))
  | _ => .error "TypeError"

/-- Source `GhostfolioNetPerformancePercentSensor.native_value` (sensor.py):
`percent_value * 100 if percent_value is not None else None` where
`percent_value = self.performance_data.get("netPerformancePercentage")`. -/
def netPerformancePercent_native_value (data : Option CoordinatorData)
    (range_param : String) : Except String (Option Json) :=
  match (performance_data data range_param).pyGet "netPerformancePercentage" with
  | .null => .ok none
  | v => (pyMul100 v).map some

/-- The snapshot the merge loop would cache for one response: `none` when the
response is skipped as malformed (not a dict), otherwise the dict under its
`performance` key when that value is a dict, else the response itself. -/
def perfDataOf (result : Json) : Option Json :=
  match result with
  | .obj rfields =>
      some (match (lookupField rfields "performance").getD .null with
            | .obj pfields => Json.obj pfields
            | _ => result)
  | _ => none

/-- The fallback currency the merge loop actually computes: the `baseCurrency`
field of the first cached snapshot, in range order, whose field is present and
non-null; `null` when no snapshot carries one. -/
def scanBaseCurrency : List Json → Json
  | [] => .null
  | r :: rs =>
      match perfDataOf r with
      | none => scanBaseCurrency rs
      | some pd =>
          match pd.pyGet "baseCurrency" with
          | .null => scanBaseCurrency rs
          | v => v

/-- The earliest-transaction date the merge loop actually computes: the
`firstOrderDate` field of the first well-formed response, in range order,
whose field is present and non-null; `null` when none carries one. -/
def scanFirstOrderDate : List Json → Json
  | [] => .null
  | r :: rs =>
      match r with
      | .obj rfields =>
          match (lookupField rfields "firstOrderDate").getD .null with
          | .null => scanFirstOrderDate rs
          | v => v
      | _ => scanFirstOrderDate rs

/-- The spec's wording of the base-currency resolution, for comparison with
the code: "prefer the user-settings response's nested currency field;
otherwise fall back to the first range snapshot's own currency field" — the
fallback reads the `baseCurrency` field of the first range's snapshot only. -/
def specResolvedBaseCurrency (performance_results : List Json)
    (user_settings : Json) : Json :=
  match (user_settings.pyGet "settings").pyGet "baseCurrency" with
  | .null =>
      match performance_results with
      | [] => .null
      | r :: _ =>
          match perfDataOf r with
          | some pd => pd.pyGet "baseCurrency"
          | none => .null
  | v => v

/-- The spec's wording of the earliest-transaction-date hoisting, for
comparison with the code: "hoist the earliest-transaction date from the first
successful range" — read from the first well-formed response only. -/
def specFirstOrderDate (performance_results : List Json) : Json :=
  match performance_results.filter (fun r => r.isObj) with
  | [] => .null
  | r :: _ => r.pyGet "firstOrderDate"

/-- Python `x if x is not None else y`, the holding pattern of the merge
loop's `first_order_date` and `base_currency` accumulators: keep the current
value unless it is still `None`. -/
def orElseNull (v w : Json) : Json :=
  match v with
  | .null => w
  | x => x

theorem orElseNull_null (w : Json) : orElseNull Json.null w = w := rfl

theorem orElseNull_of_ne (v w : Json) (h : v ≠ Json.null) : orElseNull v w = v := by
  cases v
  · exact absurd rfl h
  · rfl
  · rfl
  · rfl

theorem mergeStep_eq (acc : CoordinatorData) (r : String) (result : Json) :
    mergeStep acc r result =
      match perfDataOf result with
      | none => acc
      | some pd =>
          { base_currency :=
              match acc.base_currency with
              | .null => pd.pyGet "baseCurrency"
              | v => v
            performance := dictSet acc.performance r pd
            firstOrderDate :=
              match acc.firstOrderDate with
              | .null => result.pyGet "firstOrderDate"
              | v => v } := by
  cases result with
  | null => rfl
  | num q => rfl
  | str s => rfl
  | obj rfields =>
      simp only [mergeStep, perfDataOf, Json.pyGet]
      rcases h : (lookupField rfields "performance").getD .null with _ | q | st | pfields <;>
        simp [h]

theorem foldMerge_base_currency (ps : List (String × Json)) :
    ∀ acc : CoordinatorData,
      (ps.foldl (fun acc p => mergeStep acc p.1 p.2) acc).base_currency =
        orElseNull acc.base_currency (scanBaseCurrency (ps.map Prod.snd)) := by
  induction ps with
  | nil =>
      intro acc
      cases hbc : acc.base_currency <;> simp [scanBaseCurrency, hbc, orElseNull]
  | cons p rest ih =>
      intro acc
      rw [List.foldl_cons, ih, mergeStep_eq]
      cases hbc : acc.base_currency with
      | null =>
          rcases hpd : perfDataOf p.2 with _ | pd
          · simp [List.map_cons, scanBaseCurrency, hpd, hbc, orElseNull]
          · simp [List.map_cons, scanBaseCurrency, hpd, hbc, orElseNull]
      | num q =>
          rcases hpd : perfDataOf p.2 with _ | pd <;> simp [hpd, hbc, orElseNull]
      | str t =>
          rcases hpd : perfDataOf p.2 with _ | pd <;> simp [hpd, hbc, orElseNull]
      | obj fs =>
          rcases hpd : perfDataOf p.2 with _ | pd <;> simp [hpd, hbc, orElseNull]

theorem foldMerge_firstOrderDate (ps : List (String × Json)) :
    ∀ acc : CoordinatorData,
      (ps.foldl (fun acc p => mergeStep acc p.1 p.2) acc).firstOrderDate =
        orElseNull acc.firstOrderDate (scanFirstOrderDate (ps.map Prod.snd)) := by
  induction ps with
  | nil =>
      intro acc
      cases hfd : acc.firstOrderDate <;> simp [scanFirstOrderDate, hfd, orElseNull]
  | cons p rest ih =>
      intro acc
      rw [List.foldl_cons, ih, mergeStep_eq]
      rcases hp : p.2 with _ | q | t | rfields <;>
        cases hfd : acc.firstOrderDate <;>
          simp only [hp, perfDataOf, List.map_cons, scanFirstOrderDate, hfd,
            Json.pyGet, orElseNull]

/-- The cache-building part of the merge loop in isolation: each well-formed
response inserts its snapshot under its range, malformed responses are
skipped. -/
def cacheFold (ps : List (String × Json)) (c : List (String × Json)) :
    List (String × Json) :=
  ps.foldl
    (fun c p =>
      match perfDataOf p.2 with
      | some pd => dictSet c p.1 pd
      | none => c) c

theorem foldMerge_performance (ps : List (String × Json)) :
    ∀ acc : CoordinatorData,
      (ps.foldl (fun acc p => mergeStep acc p.1 p.2) acc).performance =
        cacheFold ps acc.performance := by
  induction ps with
  | nil => intro acc; rfl
  | cons p rest ih =>
      intro acc
      rw [List.foldl_cons, ih, mergeStep_eq]
      simp only [cacheFold, List.foldl_cons]
      rcases hpd : perfDataOf p.2 with _ | pd <;> simp [hpd]

theorem lookupField_dictSet_self (l : List (String × Json)) (k : String) (v : Json) :
    lookupField (dictSet l k v) k = some v := by
  induction l with
  | nil => simp [dictSet, lookupField]
  | cons p rest ih =>
      obtain ⟨k', v'⟩ := p
      by_cases h : k' = k
      · simp [dictSet, lookupField, h]
      · simp [dictSet, lookupField, h, ih]

theorem lookupField_dictSet_ne (l : List (String × Json)) (k k' : String)
    (v : Json) (h : k' ≠ k) :
    lookupField (dictSet l k v) k' = lookupField l k' := by
  have hk : ¬ (k = k') := fun hh => h hh.symm
  induction l with
  | nil => simp [dictSet, lookupField, hk]
  | cons p rest ih =>
      obtain ⟨k0, v0⟩ := p
      by_cases h0 : k0 = k
      · subst h0
        simp [dictSet, lookupField, hk]
      · simp only [dictSet, if_neg h0, lookupField]
        by_cases h1 : k0 = k' <;> simp [h1, ih]

theorem lookup_cacheFold_not_mem (ps : List (String × Json)) :
    ∀ c r, r ∉ ps.map Prod.fst →
      lookupField (cacheFold ps c) r = lookupField c r := by
  induction ps with
  | nil => intro c r _; rfl
  | cons p rest ih =>
      intro c r hr
      simp only [List.map_cons, List.mem_cons, not_or] at hr
      rw [cacheFold, List.foldl_cons]
      rcases hpd : perfDataOf p.2 with _ | pd
      · exact ih c r hr.2
      · rw [show (rest.foldl _ _ : List (String × Json)) = cacheFold rest (dictSet c p.1 pd) from rfl]
        rw [ih _ r hr.2]
        exact lookupField_dictSet_ne c p.1 r pd hr.1

theorem lookup_cacheFold_mem (ps : List (String × Json)) :
    ∀ c r res pd, (ps.map Prod.fst).Nodup → (r, res) ∈ ps →
      perfDataOf res = some pd →
      lookupField (cacheFold ps c) r = some pd := by
  induction ps with
  | nil => intro c r res pd _ h; cases h
  | cons p rest ih =>
      intro c r res pd hnd hmem hpd
      simp only [List.map_cons, List.nodup_cons] at hnd
      rw [cacheFold, List.foldl_cons]
      rcases List.mem_cons.mp hmem with heq | htail
      · cases heq
        rw [hpd]
        rw [show (rest.foldl _ _ : List (String × Json)) = cacheFold rest (dictSet c r pd) from rfl]
        rw [lookup_cacheFold_not_mem rest _ r hnd.1]
        exact lookupField_dictSet_self c r pd
      · rcases hpd2 : perfDataOf p.2 with _ | pd2
        · exact ih c r res pd hnd.2 htail hpd
        · exact ih (dictSet c p.1 pd2) r res pd hnd.2 htail hpd

theorem lookup_cacheFold_skip (ps : List (String × Json)) :
    ∀ c r res, (ps.map Prod.fst).Nodup → (r, res) ∈ ps →
      perfDataOf res = none →
      lookupField (cacheFold ps c) r = lookupField c r := by
  induction ps with
  | nil => intro c r res _ h; cases h
  | cons p rest ih =>
      intro c r res hnd hmem hpd
      simp only [List.map_cons, List.nodup_cons] at hnd
      rw [cacheFold, List.foldl_cons]
      rcases List.mem_cons.mp hmem with heq | htail
      · cases heq
        rw [hpd]
        exact lookup_cacheFold_not_mem rest c r hnd.1
      · have hr : r ≠ p.1 := by
          intro h
          exact hnd.1 (h ▸ (List.mem_map.mpr ⟨(r, res), htail, rfl⟩))
        rcases hpd2 : perfDataOf p.2 with _ | pd2
        · exact (ih c r res hnd.2 htail hpd)
        · rw [show (rest.foldl _ _ : List (String × Json)) = cacheFold rest (dictSet c p.1 pd2) from rfl]
          rw [ih _ r res hnd.2 htail hpd]
          exact lookupField_dictSet_ne c p.1 r pd2 hr

theorem mem_dedupFirst (a : String) :
    ∀ xs : List String, a ∈ dedupFirst xs ↔ a ∈ xs := by
  intro xs
  induction xs using dedupFirst.induct with
  | case1 => simp [dedupFirst]
  | case2 x xs ih =>
      rw [dedupFirst]
      simp only [List.mem_cons, ih, List.mem_filter, decide_eq_true_eq]
      by_cases hax : a = x
      · simp [hax]
      · simp [hax]

theorem nodup_dedupFirst : ∀ xs : List String, (dedupFirst xs).Nodup := by
  intro xs
  induction xs using dedupFirst.induct with
  | case1 => simp [dedupFirst]
  | case2 x xs ih =>
      rw [dedupFirst]
      refine List.nodup_cons.mpr ⟨?_, ih⟩
      intro hmem
      rw [mem_dedupFirst] at hmem
      have := (List.mem_filter.mp hmem).2
      simp at this

theorem sublist_dedupFirst : ∀ xs : List String, (dedupFirst xs).Sublist xs := by
  intro xs
  induction xs using dedupFirst.induct with
  | case1 => simp [dedupFirst]
  | case2 x xs ih =>
      rw [dedupFirst]
      exact List.Sublist.cons₂ x (ih.trans (List.filter_sublist xs))

/-- C5: the coordinator's range list is the configured list deduplicated
preserving first-seen order (a sublist of the input, without duplicates,
keeping exactly the input's elements, with `["max", "1y", "max"]` collapsing to
`["max", "1y"]`); an empty or missing configured list defaults to `["max"]`,
so the range list is never empty. -/
theorem c5_ranges_dedup_default :
    (∀ xs : List String, xs ≠ [] →
        coordinatorRanges xs = dedupFirst xs
        ∧ (coordinatorRanges xs).Sublist xs
        ∧ (coordinatorRanges xs).Nodup
        ∧ (∀ a, a ∈ coordinatorRanges xs ↔ a ∈ xs))
    ∧ coordinatorRanges ["max", "1y", "max"] = ["max", "1y"]
    ∧ coordinatorRanges [] = ["max"]
    ∧ coordinatorRanges (configuredRanges none) = ["max"]
    ∧ (∀ xs : List String, coordinatorRanges xs ≠ []) := by
  have hne : ∀ xs : List String, xs ≠ [] →
      coordinatorRanges xs = dedupFirst xs := by
    intro xs hxs
    unfold coordinatorRanges
    rw [if_neg (by simpa [List.isEmpty_iff] using hxs)]
  refine ⟨?_, by simp [coordinatorRanges, dedupFirst],
    by simp [coordinatorRanges, DEFAULT_PERFORMANCE_RANGES, dedupFirst],
    by simp [coordinatorRanges, configuredRanges, DEFAULT_PERFORMANCE_RANGES, dedupFirst], ?_⟩
  · intro xs hxs
    rw [hne xs hxs]
    exact ⟨rfl, sublist_dedupFirst xs, nodup_dedupFirst xs,
      fun a => mem_dedupFirst a xs⟩
  · intro xs
    cases xs with
    | nil => simp [coordinatorRanges, DEFAULT_PERFORMANCE_RANGES, dedupFirst]
    | cons x l =>
        rw [hne (x :: l) (by simp), dedupFirst]
        simp

theorem c5_witness :
    ((["max", "1y", "max"] : List String) ≠ []
      ∧ coordinatorRanges ["max", "1y", "max"] = dedupFirst ["max", "1y", "max"])
    ∧ coordinatorRanges [] = ["max"] := by
  refine ⟨⟨by decide, ?_⟩, c5_ranges_dedup_default.2.2.1⟩
  exact (c5_ranges_dedup_default.1 ["max", "1y", "max"] (by decide)).1

theorem authenticate_events (s : GhostfolioAPI) (resp : HttpResult) :
    (s.authenticate resp).2.1 = [ApiEvent.authPost s.access_token] := by
  cases resp with
  | ok st b =>
      by_cases h : st = 200 ∨ st = 201 <;> simp [GhostfolioAPI.authenticate, h]
  | netErr m => rfl

theorem get_portfolio_performance_lazy_head (s : GhostfolioAPI) (r : String)
    (env : PerfEnv) (h : s.auth_token.truthy = false) :
    (s.get_portfolio_performance r env).2.1.head? =
      some (ApiEvent.authPost s.access_token) := by
  unfold GhostfolioAPI.get_portfolio_performance
  rw [if_neg (by simp [h])]
  rcases hA : s.authenticate env.lazyAuthResp with ⟨s1, ev, res⟩
  have hev : ev = [ApiEvent.authPost s.access_token] := by
    have := authenticate_events s env.lazyAuthResp
    rw [hA] at this
    exact this
  cases res <;> simp [hev]

/-- C3: `authenticate()` on status 200 or 201 extracts the `authToken` field
from the JSON body, stores it on the client and returns it; any other status
raises an Authentication error carrying the status and leaves the stored
token unchanged (only the session is touched), a fresh client holding no
token; a transport-level failure raises a Connection error wrapping the
underlying message. -/
theorem c3_authenticate_contract (s : GhostfolioAPI) (st : Nat) (body : Json)
    (m : String) :
    ((st = 200 ∨ st = 201) →
        s.authenticate (.ok st body) =
          ({ s with session := getSession s.session,
                    auth_token := body.pyGet "authToken" },
            [ApiEvent.authPost s.access_token],
            Except.ok (body.pyGet "authToken")))
    ∧ (¬(st = 200 ∨ st = 201) →
        s.authenticate (.ok st body) =
          ({ s with session := getSession s.session },
            [ApiEvent.authPost s.access_token],
            Except.error (ApiError.authFailed st)))
    ∧ s.authenticate (.netErr m) =
        ({ s with session := getSession s.session },
          [ApiEvent.authPost s.access_token],
          Except.error (ApiError.connectionError m))
    ∧ (GhostfolioAPI.init s.base_url s.access_token s.verify_ssl).auth_token
        = Json.null := by
  refine ⟨?_, ?_, rfl, rfl⟩
  · intro h
    simp [GhostfolioAPI.authenticate, h]
  · intro h
    simp [GhostfolioAPI.authenticate, h]

theorem c3_witness :
    (((200 : Nat) = 200 ∨ (200 : Nat) = 201)
      ∧ (GhostfolioAPI.init "http://g" "secret" true).authenticate
          (.ok 200 (Json.obj [("authToken", Json.str "abc")])) =
        ({ GhostfolioAPI.init "http://g" "secret" true with
            session := SessionState.opened, auth_token := Json.str "abc" },
          [ApiEvent.authPost "secret"], Except.ok (Json.str "abc")))
    ∧ (¬((403 : Nat) = 200 ∨ (403 : Nat) = 201)
      ∧ (GhostfolioAPI.init "http://g" "secret" true).authenticate
          (.ok 403 (Json.obj [("authToken", Json.str "abc")])) =
        ({ GhostfolioAPI.init "http://g" "secret" true with
            session := SessionState.opened },
          [ApiEvent.authPost "secret"],
          Except.error (ApiError.authFailed 403))) := by
  refine ⟨⟨by decide, ?_⟩, ⟨by decide, ?_⟩⟩
  · exact (c3_authenticate_contract (GhostfolioAPI.init "http://g" "secret" true)
      200 (Json.obj [("authToken", Json.str "abc")]) "").1 (by decide)
  · exact (c3_authenticate_contract (GhostfolioAPI.init "http://g" "secret" true)
      403 (Json.obj [("authToken", Json.str "abc")]) "").2.1 (by decide)

/-- C1: when the first performance GET answers 401 and the re-authentication
exchange succeeds, the client issues exactly one re-authentication POST and
exactly one retried GET carrying the newly acquired token — the request list
is literally first GET, auth POST, retried GET, with no looping; the stored
token is the new one; a 200 retry returns the retry's parsed body, and any
non-200 retry status raises an API error carrying that status.  A call that
already holds a truthy token runs exactly this request phase. -/
theorem c1_retry_once_on_401 (s : GhostfolioAPI) (r : String) (env : PerfEnv)
    (b abody : Json) (ast : Nat)
    (hfirst : env.firstGetResp = .ok 401 b)
    (hre : env.reAuthResp = .ok ast abody)
    (hst : ast = 200 ∨ ast = 201) :
    (perfRequestPhase s r env).2.1 =
        [ApiEvent.perfGet r s.auth_token, ApiEvent.authPost s.access_token,
          ApiEvent.perfGet r (abody.pyGet "authToken")]
    ∧ (perfRequestPhase s r env).1.auth_token = abody.pyGet "authToken"
    ∧ (∀ body2, env.retryGetResp = .ok 200 body2 →
        (perfRequestPhase s r env).2.2 = Except.ok body2)
    ∧ (∀ st2 body2, st2 ≠ 200 → env.retryGetResp = .ok st2 body2 →
        (perfRequestPhase s r env).2.2 =
          Except.error (ApiError.apiRequestFailed st2))
    ∧ (s.auth_token.truthy = true →
        s.get_portfolio_performance r env = perfRequestPhase s r env) := by
  have hphase : ∀ res : HttpResult, env.retryGetResp = res →
      perfRequestPhase s r env =
        (let s2 : GhostfolioAPI := { s with session := getSession s.session }
         let s3 : GhostfolioAPI :=
           { s2 with session := getSession s2.session,
                     auth_token := abody.pyGet "authToken" }
         let ev2 := [ApiEvent.perfGet r s.auth_token,
            ApiEvent.authPost s.access_token,
            ApiEvent.perfGet r (abody.pyGet "authToken")]
         match res with
         | .ok status2 body2 =>
             if status2 = 200 then
               ({ s3 with session := getSession s3.session }, ev2, Except.ok body2)
             else
               ({ s3 with session := getSession s3.session }, ev2,
                 Except.error (ApiError.apiRequestFailed status2))
         | .netErr m =>
             ({ s3 with session := getSession s3.session }, ev2,
               Except.error (ApiError.connectionError m))) := by
    intro res hres
    unfold perfRequestPhase
    rw [hfirst, ← hres]
    simp only [GhostfolioAPI.authenticate, hre]
    rw [if_pos hst]
    simp
  refine ⟨?_, ?_, ?_, ?_, ?_⟩
  · rw [hphase env.retryGetResp rfl]
    cases h : env.retryGetResp with
    | ok st2 b2 => by_cases h2 : st2 = 200 <;> simp [h2]
    | netErr m => simp
  · rw [hphase env.retryGetResp rfl]
    cases h : env.retryGetResp with
    | ok st2 b2 => by_cases h2 : st2 = 200 <;> simp [h2, getSession]
    | netErr m => simp [getSession]
  · intro body2 hretry
    rw [hphase (.ok 200 body2) hretry]
    simp
  · intro st2 body2 hne hretry
    rw [hphase (.ok st2 body2) hretry]
    simp [hne]
  · intro htok
    simp [GhostfolioAPI.get_portfolio_performance, htok]

theorem c1_witness :
    (let s : GhostfolioAPI :=
      { base_url := "http://g", access_token := "secret", verify_ssl := true,
        auth_token := Json.str "old", session := SessionState.opened }
     let env : PerfEnv :=
      { lazyAuthResp := .ok 200 (Json.obj [])
        firstGetResp := .ok 401 (Json.obj [])
        reAuthResp := .ok 200 (Json.obj [("authToken", Json.str "new")])
        retryGetResp := .ok 200 (Json.obj [("netPerformance", Json.num 123.4)]) }
     (perfRequestPhase s "max" env).2.1 =
        [ApiEvent.perfGet "max" (Json.str "old"), ApiEvent.authPost "secret",
          ApiEvent.perfGet "max" (Json.str "new")]
      ∧ (perfRequestPhase s "max" env).1.auth_token = Json.str "new"
      ∧ (perfRequestPhase s "max" env).2.2 =
          Except.ok (Json.obj [("netPerformance", Json.num 123.4)])) := by
  have h := c1_retry_once_on_401
    { base_url := "http://g", access_token := "secret", verify_ssl := true,
      auth_token := Json.str "old", session := SessionState.opened }
    "max"
    { lazyAuthResp := .ok 200 (Json.obj [])
      firstGetResp := .ok 401 (Json.obj [])
      reAuthResp := .ok 200 (Json.obj [("authToken", Json.str "new")])
      retryGetResp := .ok 200 (Json.obj [("netPerformance", Json.num 123.4)]) }
    (Json.obj []) (Json.obj [("authToken", Json.str "new")]) 200
    rfl rfl (Or.inl rfl)
  exact ⟨h.1, h.2.1, h.2.2.1 (Json.obj [("netPerformance", Json.num 123.4)]) rfl⟩

theorem _async_update_data_eq_ok (ranges : List String) (results : List Json)
    (us : Json) (d : CoordinatorData)
    (hd : _async_update_data ranges results us = Except.ok d) :
    ∃ c, settingsBaseCurrency us = Except.ok c ∧
      d = (List.zip ranges results).foldl (fun acc p => mergeStep acc p.1 p.2)
        { base_currency := c, performance := [], firstOrderDate := Json.null } := by
  unfold _async_update_data at hd
  rcases hsc : settingsBaseCurrency us with e | c <;> rw [hsc] at hd <;>
    simp only [Except.map] at hd
  · cases hd
  · cases hd
    exact ⟨c, rfl, rfl⟩

theorem perfDataOf_none_iff (res : Json) :
    perfDataOf res = none ↔ res.isObj = false := by
  cases res <;> simp [perfDataOf, Json.isObj]

theorem zip_keys_eq (ranges : List String) (results : List Json)
    (hlen : ranges.length = results.length) :
    (List.zip ranges results).map Prod.fst = ranges :=
  List.map_fst_zip ranges results (le_of_eq hlen)

theorem zip_vals_eq (ranges : List String) (results : List Json)
    (hlen : ranges.length = results.length) :
    (List.zip ranges results).map Prod.snd = results :=
  List.map_snd_zip ranges results (le_of_eq hlen.symm)

/-- C2 counterexample: with ranges `["max", "1y"]`, a user-settings response
with no currency, a first snapshot without a `baseCurrency` field and a second
snapshot carrying `"USD"`, the merge resolves the base currency to `"USD"`
from the second range — not to the first range snapshot's own (absent)
`baseCurrency` field, which the claim's fallback would give (`null`). -/
theorem c2_counterexample :
    _async_update_data ["max", "1y"]
        [Json.obj [("a", Json.num 1)], Json.obj [("baseCurrency", Json.str "USD")]]
        (Json.obj []) =
      Except.ok
        { base_currency := Json.str "USD",
          performance := [("max", Json.obj [("a", Json.num 1)]),
            ("1y", Json.obj [("baseCurrency", Json.str "USD")])],
          firstOrderDate := Json.null }
    ∧ specResolvedBaseCurrency
        [Json.obj [("a", Json.num 1)], Json.obj [("baseCurrency", Json.str "USD")]]
        (Json.obj []) = Json.null
    ∧ Json.str "USD" ≠ Json.null :=
  ⟨rfl, rfl, fun h => Json.noConfusion h⟩

/-- C2 (amended): one refresh cycle issues exactly one performance fetch per
configured range together with one user-settings fetch, and the merge is a
function of the complete gathered response list; the resolved base currency is
the user-settings response's nested `settings.baseCurrency` value when that is
present and non-null, and otherwise the `baseCurrency` of the first range
snapshot, in configured order, that carries a non-null one (not necessarily
the first range's snapshot). -/
theorem c2_fanout_and_currency_resolution (ranges : List String)
    (results : List Json) (us : Json) (d : CoordinatorData)
    (hlen : ranges.length = results.length)
    (hd : _async_update_data ranges results us = Except.ok d) :
    refreshRequests ranges
        = ranges.map CoordRequest.perfFetch ++ [CoordRequest.settingsFetch]
    ∧ (∀ c, settingsBaseCurrency us = Except.ok c → c ≠ Json.null →
        d.base_currency = c)
    ∧ (settingsBaseCurrency us = Except.ok Json.null →
        d.base_currency = scanBaseCurrency results) := by
  obtain ⟨c, hsc, hdd⟩ := _async_update_data_eq_ok ranges results us d hd
  refine ⟨rfl, ?_, ?_⟩
  · intro c2 hsc2 hne
    rw [hsc] at hsc2
    injection hsc2 with hc
    subst hc
    subst hdd
    rw [foldMerge_base_currency]
    exact orElseNull_of_ne _ _ hne
  · intro hnull
    rw [hsc] at hnull
    injection hnull with hc
    subst hc
    subst hdd
    rw [foldMerge_base_currency, zip_vals_eq ranges results hlen]
    exact orElseNull_null _

theorem c2_witness :
    ((["max"] : List String).length = ([Json.obj [("baseCurrency", Json.str "EUR")]] : List Json).length
      ∧ _async_update_data ["max"] [Json.obj [("baseCurrency", Json.str "EUR")]]
          (Json.obj [("settings", Json.obj [("baseCurrency", Json.str "CHF")])]) =
        Except.ok
          { base_currency := Json.str "CHF",
            performance := [("max", Json.obj [("baseCurrency", Json.str "EUR")])],
            firstOrderDate := Json.null }
      ∧ settingsBaseCurrency
          (Json.obj [("settings", Json.obj [("baseCurrency", Json.str "CHF")])]) =
        Except.ok (Json.str "CHF")
      ∧ Json.str "CHF" ≠ Json.null)
    ∧ ({ base_currency := Json.str "CHF",
          performance := [("max", Json.obj [("baseCurrency", Json.str "EUR")])],
          firstOrderDate := Json.null } : CoordinatorData).base_currency
        = Json.str "CHF" := by
  refine ⟨⟨rfl, rfl, rfl, fun h => Json.noConfusion h⟩, ?_⟩
  exact (c2_fanout_and_currency_resolution ["max"]
    [Json.obj [("baseCurrency", Json.str "EUR")]]
    (Json.obj [("settings", Json.obj [("baseCurrency", Json.str "CHF")])])
    { base_currency := Json.str "CHF",
      performance := [("max", Json.obj [("baseCurrency", Json.str "EUR")])],
      firstOrderDate := Json.null }
    rfl rfl).2.1 (Json.str "CHF") rfl (fun h => Json.noConfusion h)

/-- C4 counterexample: with ranges `["max", "1y"]` where the first well-formed
response has no `firstOrderDate` field and the second carries one, the merge
hoists the date from the second range — not from the first successful range,
whose own (absent) field would give `null` as the claim states. -/
theorem c4_counterexample :
    _async_update_data ["max", "1y"]
        [Json.obj [("a", Json.num 1)],
          Json.obj [("firstOrderDate", Json.str "2020-01-01")]]
        (Json.obj []) =
      Except.ok
        { base_currency := Json.null,
          performance := [("max", Json.obj [("a", Json.num 1)]),
            ("1y", Json.obj [("firstOrderDate", Json.str "2020-01-01")])],
          firstOrderDate := Json.str "2020-01-01" }
    ∧ specFirstOrderDate
        [Json.obj [("a", Json.num 1)],
          Json.obj [("firstOrderDate", Json.str "2020-01-01")]] = Json.null
    ∧ Json.str "2020-01-01" ≠ Json.null :=
  ⟨rfl, rfl, fun h => Json.noConfusion h⟩

/-- C4 (amended): for every list of per-range responses the merge never fails
on a malformed entry — any response that is not a dict is skipped, leaving no
cache entry for its range — and each well-formed response is keyed in the
cache under its own range identifier, unwrapping a dict nested under its
`performance` key when present; the earliest-transaction date is taken from
the first well-formed response, in range order, carrying a non-null
`firstOrderDate` (not necessarily from the first successful range). -/
theorem c4_merge_skip_key_hoist (ranges : List String) (results : List Json)
    (us : Json) (d : CoordinatorData) (hnd : ranges.Nodup)
    (hlen : ranges.length = results.length)
    (hd : _async_update_data ranges results us = Except.ok d) :
    (∀ results2 c, settingsBaseCurrency us = Except.ok c →
        ∃ d2, _async_update_data ranges results2 us = Except.ok d2)
    ∧ (∀ r res, (r, res) ∈ List.zip ranges results → res.isObj = false →
        lookupField d.performance r = none)
    ∧ (∀ r res pd, (r, res) ∈ List.zip ranges results →
        perfDataOf res = some pd → lookupField d.performance r = some pd)
    ∧ d.firstOrderDate = scanFirstOrderDate results := by
  obtain ⟨c, hsc, hdd⟩ := _async_update_data_eq_ok ranges results us d hd
  have hkeys : (List.zip ranges results).map Prod.fst = ranges :=
    zip_keys_eq ranges results hlen
  have hznd : ((List.zip ranges results).map Prod.fst).Nodup := by
    rw [hkeys]; exact hnd
  have hperf : d.performance = cacheFold (List.zip ranges results) [] := by
    subst hdd
    rw [foldMerge_performance]
  refine ⟨?_, ?_, ?_, ?_⟩
  · intro results2 c2 hsc2
    unfold _async_update_data
    rw [hsc2]
    exact ⟨_, rfl⟩
  · intro r res hmem hobj
    rw [hperf]
    rw [lookup_cacheFold_skip (List.zip ranges results) [] r res hznd hmem
      ((perfDataOf_none_iff res).mpr hobj)]
    rfl
  · intro r res pd hmem hpd
    rw [hperf]
    exact lookup_cacheFold_mem (List.zip ranges results) [] r res pd hznd hmem hpd
  · subst hdd
    rw [foldMerge_firstOrderDate, zip_vals_eq ranges results hlen]
    exact orElseNull_null _

theorem c4_witness :
    ((["max", "1y"] : List String).Nodup
      ∧ _async_update_data ["max", "1y"]
          [Json.str "bad",
            Json.obj [("performance", Json.obj [("netPerformance", Json.num 2)]),
              ("firstOrderDate", Json.str "2021-05-05")]]
          (Json.obj []) =
        Except.ok
          { base_currency := Json.null,
            performance :=
              [("1y", Json.obj [("netPerformance", Json.num 2)])],
            firstOrderDate := Json.str "2021-05-05" })
    ∧ lookupField
        ([("1y", Json.obj [("netPerformance", Json.num 2)])]) "max" = none
    ∧ lookupField
        ([("1y", Json.obj [("netPerformance", Json.num 2)])]) "1y" =
          some (Json.obj [("netPerformance", Json.num 2)])
    ∧ (Json.str "2021-05-05" : Json) =
        scanFirstOrderDate
          [Json.str "bad",
            Json.obj [("performance", Json.obj [("netPerformance", Json.num 2)]),
              ("firstOrderDate", Json.str "2021-05-05")]] := by
  have h := c4_merge_skip_key_hoist ["max", "1y"]
    [Json.str "bad",
      Json.obj [("performance", Json.obj [("netPerformance", Json.num 2)]),
        ("firstOrderDate", Json.str "2021-05-05")]]
    (Json.obj [])
    { base_currency := Json.null,
      performance := [("1y", Json.obj [("netPerformance", Json.num 2)])],
      firstOrderDate := Json.str "2021-05-05" }
    (by decide) rfl rfl
  refine ⟨⟨by decide, rfl⟩, ?_, ?_, ?_⟩
  · exact h.2.1 "max" (Json.str "bad") (List.mem_cons_self _ _) rfl
  · exact h.2.2.1 "1y"
      (Json.obj [("performance", Json.obj [("netPerformance", Json.num 2)]),
        ("firstOrderDate", Json.str "2021-05-05")])
      (Json.obj [("netPerformance", Json.num 2)])
      (List.mem_cons_of_mem _ (List.mem_cons_self _ _)) rfl
  · exact h.2.2.2

/-- C8: when every configured range succeeds with a well-formed object, the
cache of the merged refresh keys every range to its own snapshot; the
net-performance-percentage sensor returns the stored
`netPerformancePercentage` multiplied by 100 and `None` when the field is
absent; on the spec's example (`"max"` with a current value, `"ytd"` with
percentage 0.05) both ranges are cached under their keys and the `"ytd"`
sensor reads 5. -/
theorem c8_cache_and_percent_sensor (ranges : List String)
    (results : List Json) (us : Json) (d : CoordinatorData)
    (hnd : ranges.Nodup) (hlen : ranges.length = results.length)
    (hall : ∀ res ∈ results, res.isObj = true)
    (hd : _async_update_data ranges results us = Except.ok d) :
    (∀ r res pd, (r, res) ∈ List.zip ranges results →
        perfDataOf res = some pd → lookupField d.performance r = some pd)
    ∧ (∀ data r q,
        (performance_data data r).pyGet "netPerformancePercentage" = Json.num q →
        netPerformancePercent_native_value data r =
          Except.ok (some (Json.num (q * 100))))
    ∧ (∀ data r,
        (performance_data data r).pyGet "netPerformancePercentage" = Json.null →
        netPerformancePercent_native_value data r = Except.ok none)
    ∧ (_async_update_data ["max", "ytd"]
        [Json.obj [("currentValueInBaseCurrency", Json.num 1000)],
          Json.obj [("netPerformancePercentage", Json.num 0.05)]]
        (Json.obj []) =
      Except.ok
        { base_currency := Json.null,
          performance :=
            [("max", Json.obj [("currentValueInBaseCurrency", Json.num 1000)]),
              ("ytd", Json.obj [("netPerformancePercentage", Json.num 0.05)])],
          firstOrderDate := Json.null }
      ∧ netPerformancePercent_native_value
          (some
            { base_currency := Json.null,
              performance :=
                [("max", Json.obj [("currentValueInBaseCurrency", Json.num 1000)]),
                  ("ytd", Json.obj [("netPerformancePercentage", Json.num 0.05)])],
              firstOrderDate := Json.null }) "ytd" =
        Except.ok (some (Json.num 5))) := by
  obtain ⟨c, hsc, hdd⟩ := _async_update_data_eq_ok ranges results us d hd
  have hznd : ((List.zip ranges results).map Prod.fst).Nodup := by
    rw [zip_keys_eq ranges results hlen]; exact hnd
  have hperf : d.performance = cacheFold (List.zip ranges results) [] := by
    subst hdd
    rw [foldMerge_performance]
  refine ⟨?_, ?_, ?_, rfl, ?_⟩
  · intro r res pd hmem hpd
    rw [hperf]
    exact lookup_cacheFold_mem (List.zip ranges results) [] r res pd hznd hmem hpd
  · intro data r q hq
    simp [netPerformancePercent_native_value, hq, pyMul100, Except.map]
  · intro data r hq
    simp [netPerformancePercent_native_value, hq]
  · simp [netPerformancePercent_native_value, performance_data, lookupField,
      Json.pyGet, pyMul100, Except.map]
    norm_num

theorem c8_witness :
    ((["max", "ytd"] : List String).Nodup
      ∧ (∀ res ∈ ([Json.obj [("currentValueInBaseCurrency", Json.num 1000)],
            Json.obj [("netPerformancePercentage", Json.num 0.05)]] : List Json),
          res.isObj = true))
    ∧ lookupField
        [("max", Json.obj [("currentValueInBaseCurrency", Json.num 1000)]),
          ("ytd", Json.obj [("netPerformancePercentage", Json.num 0.05)])] "ytd" =
      some (Json.obj [("netPerformancePercentage", Json.num 0.05)]) := by
  have h := c8_cache_and_percent_sensor ["max", "ytd"]
    [Json.obj [("currentValueInBaseCurrency", Json.num 1000)],
      Json.obj [("netPerformancePercentage", Json.num 0.05)]]
    (Json.obj [])
    { base_currency := Json.null,
      performance :=
        [("max", Json.obj [("currentValueInBaseCurrency", Json.num 1000)]),
          ("ytd", Json.obj [("netPerformancePercentage", Json.num 0.05)])],
      firstOrderDate := Json.null }
    (by decide) rfl
    (by
      intro res hres
      simp only [List.mem_cons, List.not_mem_nil, or_false] at hres
      rcases hres with rfl | rfl <;> rfl)
    rfl
  refine ⟨⟨by decide, ?_⟩, ?_⟩
  · intro res hres
    simp only [List.mem_cons, List.not_mem_nil, or_false] at hres
    rcases hres with rfl | rfl <;> rfl
  · exact h.1 "ytd" (Json.obj [("netPerformancePercentage", Json.num 0.05)])
      (Json.obj [("netPerformancePercentage", Json.num 0.05)])
      (List.mem_cons_of_mem _ (List.mem_cons_self _ _)) rfl

/-- C6 counterexample: a call holding the token "old" whose first GET answers
401 and whose retry, after a successful re-authentication, answers 401 again
raises `GhostfolioAPIError("API request failed: 401")` — an API error, not an
Authentication error, contradicting the claim's classification. -/
theorem c6_counterexample :
    (GhostfolioAPI.get_portfolio_performance
        { base_url := "http://g", access_token := "secret", verify_ssl := true,
          auth_token := Json.str "old", session := SessionState.opened }
        "max"
        { lazyAuthResp := .ok 200 (Json.obj [])
          firstGetResp := .ok 401 (Json.obj [])
          reAuthResp := .ok 200 (Json.obj [("authToken", Json.str "new")])
          retryGetResp := .ok 401 (Json.obj []) }).2.2 =
      Except.error (ApiError.apiRequestFailed 401)
    ∧ ApiError.isAuthError (ApiError.apiRequestFailed 401) = false
    ∧ ApiError.isApiError (ApiError.apiRequestFailed 401) = true := by
  refine ⟨?_, rfl, rfl⟩
  rfl

/-- C6 (amended): when the initial GET returns 401 and, after a successful
re-authentication, the retry also returns 401, the surfaced error is an API
error carrying status 401, not an Authentication error; an Authentication
error surfaces out of this path only when the re-authentication exchange
itself answers a non-200/201 status. -/
theorem c6_amended_error_classification (s : GhostfolioAPI) (r : String)
    (env : PerfEnv) (b : Json) (hfirst : env.firstGetResp = .ok 401 b) :
    (∀ ast abody b2, env.reAuthResp = .ok ast abody → (ast = 200 ∨ ast = 201) →
        env.retryGetResp = .ok 401 b2 →
        (perfRequestPhase s r env).2.2 =
            Except.error (ApiError.apiRequestFailed 401)
          ∧ ApiError.isApiError (ApiError.apiRequestFailed 401) = true
          ∧ ApiError.isAuthError (ApiError.apiRequestFailed 401) = false)
    ∧ (∀ ast abody, env.reAuthResp = .ok ast abody → ¬(ast = 200 ∨ ast = 201) →
        (perfRequestPhase s r env).2.2 = Except.error (ApiError.authFailed ast)
          ∧ ApiError.isAuthError (ApiError.authFailed ast) = true) := by
  constructor
  · intro ast abody b2 hre hst hretry
    refine ⟨?_, rfl, rfl⟩
    unfold perfRequestPhase
    rw [hfirst]
    simp only [GhostfolioAPI.authenticate, hre]
    rw [if_pos hst]
    simp [hretry]
  · intro ast abody hre hnot
    refine ⟨?_, rfl⟩
    unfold perfRequestPhase
    rw [hfirst]
    simp only [GhostfolioAPI.authenticate, hre]
    rw [if_neg hnot]
    simp

theorem c6_witness :
    (({ lazyAuthResp := .ok 200 (Json.obj [])
        firstGetResp := .ok 401 (Json.obj [])
        reAuthResp := .ok 200 (Json.obj [("authToken", Json.str "new")])
        retryGetResp := .ok 401 (Json.obj []) } : PerfEnv).firstGetResp
      = .ok 401 (Json.obj []))
    ∧ (perfRequestPhase
        { base_url := "http://g", access_token := "secret", verify_ssl := true,
          auth_token := Json.str "old", session := SessionState.opened }
        "max"
        { lazyAuthResp := .ok 200 (Json.obj [])
          firstGetResp := .ok 401 (Json.obj [])
          reAuthResp := .ok 200 (Json.obj [("authToken", Json.str "new")])
          retryGetResp := .ok 401 (Json.obj []) }).2.2 =
      Except.error (ApiError.apiRequestFailed 401) := by
  refine ⟨rfl, ?_⟩
  exact ((c6_amended_error_classification
    { base_url := "http://g", access_token := "secret", verify_ssl := true,
      auth_token := Json.str "old", session := SessionState.opened }
    "max"
    { lazyAuthResp := .ok 200 (Json.obj [])
      firstGetResp := .ok 401 (Json.obj [])
      reAuthResp := .ok 200 (Json.obj [("authToken", Json.str "new")])
      retryGetResp := .ok 401 (Json.obj []) }
    (Json.obj []) rfl).1 200 (Json.obj [("authToken", Json.str "new")])
    (Json.obj []) rfl (Or.inl rfl) rfl).1

/-- C7: `get_portfolio_performance` authenticates first when no truthy token
is held (the issued request list starts with the auth POST, then runs the
request phase on the updated client), while a token-holding call goes straight
to the request phase; the GET carries the range as query parameter and the
held bearer token; a 200 answer returns the parsed body; any status other
than 200 and 401 fails immediately with an API error carrying the status,
the request list showing no re-authentication and no retry. -/
theorem c7_lazy_auth_and_status_contract (s : GhostfolioAPI) (r : String)
    (env : PerfEnv) :
    (s.auth_token.truthy = false →
        (s.get_portfolio_performance r env).2.1.head? =
          some (ApiEvent.authPost s.access_token))
    ∧ (s.auth_token.truthy = false → ∀ s1 ev tok,
        s.authenticate env.lazyAuthResp = (s1, ev, Except.ok tok) →
        s.get_portfolio_performance r env =
          ((perfRequestPhase s1 r env).1, ev ++ (perfRequestPhase s1 r env).2.1,
            (perfRequestPhase s1 r env).2.2))
    ∧ (s.auth_token.truthy = true →
        s.get_portfolio_performance r env = perfRequestPhase s r env)
    ∧ (perfRequestPhase s r env).2.1.head? =
        some (ApiEvent.perfGet r s.auth_token)
    ∧ (∀ body, env.firstGetResp = .ok 200 body →
        perfRequestPhase s r env =
          ({ s with session := getSession s.session },
            [ApiEvent.perfGet r s.auth_token], Except.ok body))
    ∧ (∀ st body, st ≠ 200 → st ≠ 401 → env.firstGetResp = .ok st body →
        perfRequestPhase s r env =
          ({ s with session := getSession s.session },
            [ApiEvent.perfGet r s.auth_token],
            Except.error (ApiError.apiRequestFailed st))) := by
  refine ⟨?_, ?_, ?_, ?_, ?_, ?_⟩
  · exact fun h => get_portfolio_performance_lazy_head s r env h
  · intro h s1 ev tok hA
    unfold GhostfolioAPI.get_portfolio_performance
    rw [if_neg (by simp [h]), hA]
  · intro h
    simp [GhostfolioAPI.get_portfolio_performance, h]
  · unfold perfRequestPhase
    cases hf : env.firstGetResp with
    | ok st b =>
        by_cases h200 : st = 200
        · simp [h200]
        · by_cases h401 : st = 401
          · rcases hA : ({ s with session := getSession s.session }
                : GhostfolioAPI).authenticate env.reAuthResp with ⟨s3, evA, res⟩
            cases res <;> cases hg : env.retryGetResp <;>
              simp [h200, h401, hA, hg] <;> split <;> simp
          · simp [h200, h401]
    | netErr m => simp
  · intro body hb
    unfold perfRequestPhase
    rw [hb]
    simp
  · intro st body h200 h401 hb
    unfold perfRequestPhase
    rw [hb]
    simp [h200, h401]

theorem c7_witness :
    ((GhostfolioAPI.init "http://g" "secret" true).auth_token.truthy = false
      ∧ ((GhostfolioAPI.init "http://g" "secret" true).get_portfolio_performance
          "1y"
          { lazyAuthResp := .ok 201 (Json.obj [("authToken", Json.str "fresh")])
            firstGetResp := .ok 200 (Json.obj [("netPerformance", Json.num 1)])
            reAuthResp := .ok 200 (Json.obj [])
            retryGetResp := .ok 200 (Json.obj []) }).2.1.head? =
        some (ApiEvent.authPost "secret"))
    ∧ ((500 : Nat) ≠ 200 ∧ (500 : Nat) ≠ 401
      ∧ perfRequestPhase
          { base_url := "http://g", access_token := "secret", verify_ssl := true,
            auth_token := Json.str "tok", session := SessionState.opened }
          "max"
          { lazyAuthResp := .ok 200 (Json.obj [])
            firstGetResp := .ok 500 (Json.obj [("statusCode", Json.num 500)])
            reAuthResp := .ok 200 (Json.obj [])
            retryGetResp := .ok 200 (Json.obj []) } =
        ({ base_url := "http://g", access_token := "secret", verify_ssl := true,
            auth_token := Json.str "tok", session := SessionState.opened },
          [ApiEvent.perfGet "max" (Json.str "tok")],
          Except.error (ApiError.apiRequestFailed 500))) := by
  refine ⟨⟨rfl, ?_⟩, by decide, by decide, ?_⟩
  · exact (c7_lazy_auth_and_status_contract
      (GhostfolioAPI.init "http://g" "secret" true) "1y"
      { lazyAuthResp := .ok 201 (Json.obj [("authToken", Json.str "fresh")])
        firstGetResp := .ok 200 (Json.obj [("netPerformance", Json.num 1)])
        reAuthResp := .ok 200 (Json.obj [])
        retryGetResp := .ok 200 (Json.obj []) }).1 rfl
  · exact (c7_lazy_auth_and_status_contract
      { base_url := "http://g", access_token := "secret", verify_ssl := true,
        auth_token := Json.str "tok", session := SessionState.opened }
      "max"
      { lazyAuthResp := .ok 200 (Json.obj [])
        firstGetResp := .ok 500 (Json.obj [("statusCode", Json.num 500)])
        reAuthResp := .ok 200 (Json.obj [])
        retryGetResp := .ok 200 (Json.obj []) }).2.2.2.2.2
      500 (Json.obj [("statusCode", Json.num 500)])
      (by decide) (by decide) rfl

/-- C10: an authentication response with status 200 or 201 whose JSON body
has no `authToken` field succeeds silently — `None` (`null`) is stored as the
token and returned, no exception is raised — and the resulting client counts
as unauthenticated, so the next `get_portfolio_performance` call begins by
issuing the auth POST again. -/
theorem c10_missing_token_silent_success (s : GhostfolioAPI) (st : Nat)
    (fields : List (String × Json)) (hst : st = 200 ∨ st = 201)
    (hmiss : lookupField fields "authToken" = none) :
    s.authenticate (.ok st (.obj fields)) =
      ({ s with session := getSession s.session, auth_token := Json.null },
        [ApiEvent.authPost s.access_token], Except.ok Json.null)
    ∧ Json.truthy Json.null = false
    ∧ (∀ r env,
        (({ s with session := getSession s.session, auth_token := Json.null }
            : GhostfolioAPI).get_portfolio_performance r env).2.1.head? =
          some (ApiEvent.authPost s.access_token)) := by
  refine ⟨?_, rfl, ?_⟩
  · simp [GhostfolioAPI.authenticate, hst, Json.pyGet, hmiss]
  · intro r env
    exact get_portfolio_performance_lazy_head _ r env rfl

theorem c10_witness :
    (((201 : Nat) = 200 ∨ (201 : Nat) = 201)
      ∧ lookupField [("userId", Json.str "u1")] "authToken" = none)
    ∧ (GhostfolioAPI.init "http://g" "secret" true).authenticate
        (.ok 201 (Json.obj [("userId", Json.str "u1")])) =
      ({ GhostfolioAPI.init "http://g" "secret" true with
          session := SessionState.opened, auth_token := Json.null },
        [ApiEvent.authPost "secret"], Except.ok Json.null) := by
  refine ⟨⟨by decide, rfl⟩, ?_⟩
  exact (c10_missing_token_silent_success
    (GhostfolioAPI.init "http://g" "secret" true) 201
    [("userId", Json.str "u1")] (by decide) rfl).1

/-- C9: `close()` is total on every client state — never-opened, open or
already-closed sessions are all handled without raising — and it is
idempotent: closing twice leaves the client in exactly the state closing once
produces. -/
theorem c9_close_idempotent :
    (∀ s : GhostfolioAPI, s.close.close = s.close)
    ∧ closeSession SessionState.unopened = SessionState.unopened
    ∧ closeSession SessionState.opened = SessionState.closed
    ∧ closeSession SessionState.closed = SessionState.closed := by
  refine ⟨?_, rfl, rfl, rfl⟩
  intro s
  cases s with
  | mk bu at_ vs tok sess => cases sess <;> rfl

end Ghostfolio
